import Mathlib

/-!
Verification of the SafeLift-AI real-time transport client
(`WebSocketClient` in the dashboard source).

The embedding models:
  * the platform primitive `JSON.parse` (as `jsonParse`, a total
    fuel-indexed recursive-descent parser over an inductive `Json` type;
    number grammar restricted to integer numerals);
  * the `Dispatcher` (`subscribe` / `notifyListeners`) including the
    exact iteration semantics of a JS `Set.forEach` under mutation from
    inside callbacks, and the per-listener try/catch;
  * the `ConnectionManager` (`connect`, `disconnect`, the four transport
    event handlers, the heartbeat interval and the scheduled reconnect
    timeouts) as a small-step machine `step : World → Ev → Option World`
    driven by an adversarial environment; `run` folds a trace of events
    and `Reachable` closes the initial state under `step`.
-/

namespace SafeLift

/-- Decoded JSON values, the result type of the modelled platform
primitive `JSON.parse`. -/
inductive Json where
  | null : Json
  | bool (b : Bool) : Json
  | num (n : Int) : Json
  | str (s : String) : Json
  | arr (elems : List Json) : Json
  | obj (fields : List (String × Json)) : Json

/-- Drop leading JSON whitespace. -/
def skipWs : List Char → List Char
  | c :: cs => if c = ' ' ∨ c = '\n' ∨ c = '\t' ∨ c = '\r' then skipWs cs else c :: cs
  | [] => []

/-- Decode a single escape character after a backslash. -/
def unescape (c : Char) : Option Char :=
  if c = '"' then some '"'
  else if c = '\\' then some '\\'
  else if c = '/' then some '/'
  else if c = 'b' then some (Char.ofNat 8)
  else if c = 'f' then some (Char.ofNat 12)
  else if c = 'n' then some '\n'
  else if c = 'r' then some '\r'
  else if c = 't' then some '\t'
  else none

/-- Parse the body of a JSON string, after the opening quote; returns the
decoded characters and the input after the closing quote. -/
def parseStringBody : List Char → Option (List Char × List Char)
  | [] => none
  | c :: cs =>
    if c = '"' then some ([], cs)
    else if c = '\\' then
      match cs with
      | [] => none
      | e :: cs2 =>
        match unescape e with
        | some d =>
          match parseStringBody cs2 with
          | some (s, r) => some (d :: s, r)
          | none => none
        | none => none
    else
      match parseStringBody cs with
      | some (s, r) => some (c :: s, r)
      | none => none

/-- Accumulate decimal digits into a natural number. -/
def digitsVal (ds : List Char) : Nat :=
  ds.foldl (fun acc c => 10 * acc + (c.toNat - 48)) 0

/-- Parse an integer numeral (optional leading minus, then digits). -/
def parseNumber (cs : List Char) : Option (Json × List Char) :=
  let (neg, cs1) := match cs with
    | '-' :: rest => (true, rest)
    | _ => (false, cs)
  let ds := cs1.takeWhile Char.isDigit
  let rest := cs1.dropWhile Char.isDigit
  if ds.isEmpty then none
  else some (Json.num (if neg then -(digitsVal ds : Int) else (digitsVal ds : Int)), rest)

/-- Mode of the recursive-descent parser core: a single value, the item
list of an array (after the opening bracket), or the field list of an
object (after the opening brace). -/
inductive PMode where
  | val : PMode
  | arrItems : PMode
  | objItems : PMode

/-- Intermediate results of the parser core. -/
inductive POut where
  | pv (j : Json) : POut
  | parr (js : List Json) : POut
  | pobj (fs : List (String × Json)) : POut

/-- Recursive-descent core of the modelled `JSON.parse`, structurally
recursive on a fuel bound. -/
def parseCore : Nat → PMode → List Char → Option (POut × List Char)
  | 0, _, _ => none
  | fuel + 1, PMode.val, cs =>
    match skipWs cs with
    | [] => none
    | c :: rest =>
      if c = 'n' then
        match rest with
        | 'u' :: 'l' :: 'l' :: r => some (POut.pv Json.null, r)
        | _ => none
      else if c = 't' then
        match rest with
        | 'r' :: 'u' :: 'e' :: r => some (POut.pv (Json.bool true), r)
        | _ => none
      else if c = 'f' then
        match rest with
        | 'a' :: 'l' :: 's' :: 'e' :: r => some (POut.pv (Json.bool false), r)
        | _ => none
      else if c = '"' then
        match parseStringBody rest with
        | some (s, r) => some (POut.pv (Json.str (String.mk s)), r)
        | none => none
      else if c = '[' then
        match parseCore fuel PMode.arrItems rest with
        | some (POut.parr js, r) => some (POut.pv (Json.arr js), r)
        | _ => none
      else if c = '{' then
        match parseCore fuel PMode.objItems rest with
        | some (POut.pobj fs, r) => some (POut.pv (Json.obj fs), r)
        | _ => none
      else if c = '-' ∨ c.isDigit then
        match parseNumber (c :: rest) with
        | some (j, r) => some (POut.pv j, r)
        | none => none
      else none
  | fuel + 1, PMode.arrItems, cs =>
    match skipWs cs with
    | ']' :: r => some (POut.parr [], r)
    | cs' =>
      match parseCore fuel PMode.val cs' with
      | some (POut.pv j, r) =>
        (match skipWs r with
         | ',' :: r2 =>
           match parseCore fuel PMode.arrItems r2 with
           | some (POut.parr js, r3) => some (POut.parr (j :: js), r3)
           | _ => none
         | ']' :: r2 => some (POut.parr [j], r2)
         | _ => none)
      | _ => none
  | fuel + 1, PMode.objItems, cs =>
    match skipWs cs with
    | '}' :: r => some (POut.pobj [], r)
    | '"' :: cs' =>
      match parseStringBody cs' with
      | some (k, r) =>
        (match skipWs r with
         | ':' :: r2 =>
           match parseCore fuel PMode.val r2 with
           | some (POut.pv j, r3) =>
             (match skipWs r3 with
              | ',' :: r4 =>
                match parseCore fuel PMode.objItems r4 with
                | some (POut.pobj fs, r5) => some (POut.pobj ((String.mk k, j) :: fs), r5)
                | _ => none
              | '}' :: r4 => some (POut.pobj [(String.mk k, j)], r4)
              | _ => none)
           | _ => none
         | _ => none)
      | none => none
    | _ => none

/-- Modelled platform primitive `JSON.parse` (the source calls
`JSON.parse(event.data)`): returns the decoded value when the whole
input is a single JSON value, `none` otherwise.  Numbers are restricted
to integer numerals; this restriction is not exercised by any claim. -/
def jsonParse (s : String) : Option Json :=
  match parseCore (2 * s.length + 4) PMode.val s.data with
  | some (POut.pv v, rest) => if (skipWs rest).isEmpty then some v else none
  | _ => none

/-!
Dispatcher model.  Listeners are opaque callback identities (`Nat`).
`this.listeners` is a JS `Set`, i.e. an insertion-ordered duplicate-free
list.  A callback's effect on the registry is abstracted as a list of
`RegOp`s it performs when invoked, and a flag saying whether it then
throws.  `notifyListeners` mirrors `Set.forEach` under mutation: the
iterator walks the ordered entry list, an element deleted before being
visited is skipped, an element added during iteration is appended and
visited, and each invocation is wrapped in try/catch (the source logs
the error and continues).
-/

/-- A registry operation a listener callback may perform while it runs:
`subscribe` (Set.add) or the returned unsubscribe handle (Set.delete). -/
inductive RegOp where
  | sub (l : Nat) : RegOp
  | unsub (l : Nat) : RegOp

/-- State of one dispatch cycle: `front` holds the already-visited
elements still in the set, `pending` the not-yet-visited members in
order (set membership is `front ++ pending`), `log` the invocations so
far, `errs` the listeners whose invocation threw (caught and logged). -/
structure DispatchState where
  front : List Nat
  pending : List Nat
  log : List Nat
  errs : List Nat

/-- Effect of one registry operation during iteration, matching JS `Set`
semantics: add appends a fresh element (to be visited), delete removes
the element wherever it stands. -/
def applyRegOp (s : DispatchState) (op : RegOp) : DispatchState :=
  match op with
  | RegOp.sub l =>
    if l ∈ s.front ∨ l ∈ s.pending then s
    else { s with pending := s.pending ++ [l] }
  | RegOp.unsub l => { s with front := s.front.erase l, pending := s.pending.erase l }

/-- Run one callback: apply its registry operations, then record the
caught exception when it throws (the source's try/catch). -/
def runCallback (behavior : Nat → List RegOp) (throws : Nat → Bool) (l : Nat)
    (s : DispatchState) : DispatchState :=
  let s1 := (behavior l).foldl applyRegOp s
  if throws l then { s1 with errs := s1.errs ++ [l] } else s1

/-- The `forEach` loop of `notifyListeners`: visit the first pending
element, run its callback, continue.  Fuel bounds the number of
visits (a callback that keeps re-adding listeners makes the JS loop
run just as long). -/
def dispatchLoop (behavior : Nat → List RegOp) (throws : Nat → Bool) :
    Nat → DispatchState → DispatchState
  | 0, s => s
  | fuel + 1, s =>
    match s.pending with
    | [] => s
    | l :: rest =>
      let s0 : DispatchState :=
        { front := s.front ++ [l], pending := rest, log := s.log ++ [l], errs := s.errs }
      dispatchLoop behavior throws fuel (runCallback behavior throws l s0)

/-- Embedding of `WebSocketClient.notifyListeners`: iterate the live
listener set, invoking each member under try/catch. -/
def notifyListeners (behavior : Nat → List RegOp) (throws : Nat → Bool)
    (listeners : List Nat) (fuel : Nat) : DispatchState :=
  dispatchLoop behavior throws fuel ⟨[], listeners, [], []⟩

/-!
ConnectionManager model.  `WebSocketClient` holds a reference `this.ws`
to a `WebSocket` object whose `readyState` is one of CONNECTING(0),
OPEN(1), CLOSING(2), CLOSED(3).  The world tracks every socket ever
created (a stale socket replaced by a later `connect()` keeps its
handlers, which close over the shared client), the active `setInterval`
timers, and the pending `setTimeout` reconnection callbacks.  Listener
callbacks are opaque here (the mutation semantics live in the
Dispatcher model above); an invocation is recorded in `invoked`.
-/

/-- The `WebSocket.readyState` constant `CONNECTING`. -/
def CONNECTING : Nat := 0
/-- The `WebSocket.readyState` constant `OPEN`. -/
def OPEN : Nat := 1
/-- The `WebSocket.readyState` constant `CLOSING`. -/
def CLOSING : Nat := 2
/-- The `WebSocket.readyState` constant `CLOSED`. -/
def CLOSED : Nat := 3

/-- The fields of the `WebSocketClient` instance (its constructor plus
the `pingInterval` field assigned in `onopen`).  `ws` is the id of the
referenced socket, `pingInterval` the id of the heartbeat interval. -/
structure ClientState where
  ws : Option Nat
  listeners : List Nat
  reconnectAttempts : Nat
  maxReconnectAttempts : Nat
  reconnectDelay : Nat
  isIntentionallyClosed : Bool
  pingInterval : Option Nat

/-- The client together with its runtime environment: the sockets ever
created (id, readyState), the live intervals (id, period), the pending
reconnect timeouts (their delays), and the observable logs of sent
frames and listener invocations. -/
structure World where
  client : ClientState
  sockets : List (Nat × Nat)
  nextSocketId : Nat
  intervals : List (Nat × Nat)
  nextIntervalId : Nat
  pendingReconnects : List Nat
  sent : List (Nat × String)
  invoked : List (Nat × Json)

/-- Look up a socket's `readyState` by id. -/
def getSock : List (Nat × Nat) → Nat → Option Nat
  | [], _ => none
  | p :: ps, sid => if p.1 = sid then some p.2 else getSock ps sid

/-- Overwrite a socket's `readyState`. -/
def setSockState (l : List (Nat × Nat)) (sid st : Nat) : List (Nat × Nat) :=
  l.map (fun p => if p.1 = sid then (p.1, st) else p)

/-- The `WebSocket.close()` method: a CONNECTING or OPEN socket moves to
CLOSING; a CLOSING or CLOSED socket is unaffected. -/
def closeSock (l : List (Nat × Nat)) (sid : Nat) : List (Nat × Nat) :=
  l.map (fun p => if p.1 = sid then (p.1, if p.2 < CLOSING then CLOSING else p.2) else p)

/-- Whether an interval with this id is still active. -/
def hasInterval : List (Nat × Nat) → Nat → Bool
  | [], _ => false
  | p :: ps, iid => if p.1 = iid then true else hasInterval ps iid

/-- The `clearInterval` primitive. -/
def clearIntervalBy (l : List (Nat × Nat)) (iid : Nat) : List (Nat × Nat) :=
  l.filter (fun p => p.1 ≠ iid)

/-- The guard of `connect()`: `this.ws?.readyState === WebSocket.OPEN`. -/
def wsIsOpen (w : World) : Bool :=
  match w.client.ws with
  | some s =>
    match getSock w.sockets s with
    | some st => st == OPEN
    | none => false
  | none => false

/-- Embedding of `WebSocketClient.connect`: return immediately when the
current socket is OPEN; otherwise clear the intentionally-closed flag
and replace `this.ws` with a fresh CONNECTING socket. -/
def connectStep (w : World) : World :=
  if wsIsOpen w then w
  else
    { w with
      client := { w.client with isIntentionallyClosed := false, ws := some w.nextSocketId }
      sockets := w.sockets ++ [(w.nextSocketId, CONNECTING)]
      nextSocketId := w.nextSocketId + 1 }

/-- Embedding of `WebSocketClient.disconnect`: set the
intentionally-closed flag, clear the heartbeat interval when one was
assigned, then close the referenced socket and null the reference.  The
pending reconnect timeouts are untouched (the source never stores the
`setTimeout` handle). -/
def disconnectStep (w : World) : World :=
  let w1 : World := { w with client := { w.client with isIntentionallyClosed := true } }
  let w2 : World :=
    match w1.client.pingInterval with
    | some iid => { w1 with intervals := clearIntervalBy w1.intervals iid }
    | none => w1
  match w2.client.ws with
  | some sid =>
    { w2 with
      sockets := closeSock w2.sockets sid
      client := { w2.client with ws := none } }
  | none => w2

/-- The `onopen` handler (with the transport's own transition to OPEN):
reset `reconnectAttempts` to 0 and start the 30000 ms heartbeat
interval, storing its id in `this.pingInterval`.  A previously leaked
interval is not cleared, exactly as in the source. -/
def sockOpenEv (w : World) (sid : Nat) : Option World :=
  if getSock w.sockets sid = some CONNECTING then
    some { w with
      sockets := setSockState w.sockets sid OPEN
      client := { w.client with reconnectAttempts := 0, pingInterval := some w.nextIntervalId }
      intervals := w.intervals ++ [(w.nextIntervalId, 30000)]
      nextIntervalId := w.nextIntervalId + 1 }
  else none

/-- The `onclose` handler (with the transport's own transition to
CLOSED): clear the heartbeat interval when one was assigned; then, when
the close is involuntary and the attempt budget is not exhausted,
increment `reconnectAttempts` and schedule a reconnect after
`reconnectDelay` (3000 ms).  It fires for stale sockets too: every
handler closes over the one shared client. -/
def sockCloseEv (w : World) (sid : Nat) : Option World :=
  match getSock w.sockets sid with
  | none => none
  | some st =>
    if st = CLOSED then none
    else
      let w1 : World := { w with sockets := setSockState w.sockets sid CLOSED }
      let w2 : World :=
        match w1.client.pingInterval with
        | some iid => { w1 with intervals := clearIntervalBy w1.intervals iid }
        | none => w1
      if w2.client.isIntentionallyClosed = false ∧
          w2.client.reconnectAttempts < w2.client.maxReconnectAttempts then
        some { w2 with
          client := { w2.client with reconnectAttempts := w2.client.reconnectAttempts + 1 }
          pendingReconnects := w2.pendingReconnects ++ [w2.client.reconnectDelay] }
      else some w2

/-- The `onmessage` handler: a literal `pong` payload is discarded;
otherwise the payload is decoded with `JSON.parse` and, on success,
handed to `notifyListeners` (callbacks opaque here, so each currently
registered listener is recorded as invoked once with the decoded
value); a decode failure is caught, logged and dropped. -/
def sockMessageEv (w : World) (sid : Nat) (data : String) : Option World :=
  if getSock w.sockets sid = some OPEN then
    if data = "pong" then some w
    else
      match jsonParse data with
      | some v =>
        some { w with invoked := w.invoked ++ w.client.listeners.map (fun l => (l, v)) }
      | none => some w
  else none

/-- The `onerror` handler: it only logs, so the world is unchanged. -/
def sockErrorEv (w : World) (sid : Nat) : Option World :=
  if (getSock w.sockets sid).isSome then some w else none

/-- A pending reconnect timeout fires: its callback is
`() => this.connect()`, with no intentionally-closed check. -/
def fireReconnectEv (w : World) : Option World :=
  match w.pendingReconnects with
  | [] => none
  | _ :: rest => some (connectStep { w with pendingReconnects := rest })

/-- A live heartbeat interval fires: send the literal `ping` frame on
the current socket exactly when `this.ws?.readyState === OPEN`. -/
def firePingEv (w : World) (iid : Nat) : Option World :=
  if hasInterval w.intervals iid then
    some (match w.client.ws with
      | some s =>
        if getSock w.sockets s = some OPEN then { w with sent := w.sent ++ [(s, "ping")] }
        else w
      | none => w)
  else none

/-- Embedding of `WebSocketClient.subscribe`: `Set.add`. -/
def subscribeStep (w : World) (l : Nat) : World :=
  if l ∈ w.client.listeners then w
  else { w with client := { w.client with listeners := w.client.listeners ++ [l] } }

/-- The unsubscribe handle returned by `subscribe`: `Set.delete`. -/
def unsubscribeStep (w : World) (l : Nat) : World :=
  { w with client := { w.client with listeners := w.client.listeners.erase l } }

/-- Environment events: the two public calls, the four transport
events (tagged with the socket they fire on), the two timer firings,
and listener registration from the outside. -/
inductive Ev where
  | connect : Ev
  | disconnect : Ev
  | sockOpen (sid : Nat) : Ev
  | sockClose (sid : Nat) : Ev
  | sockMessage (sid : Nat) (data : String) : Ev
  | sockError (sid : Nat) : Ev
  | fireReconnect : Ev
  | firePing (iid : Nat) : Ev
  | subscribe (l : Nat) : Ev
  | unsubscribe (l : Nat) : Ev
deriving DecidableEq

/-- One step of the machine: `none` when the event is not enabled in
this world. -/
def step (w : World) : Ev → Option World
  | Ev.connect => some (connectStep w)
  | Ev.disconnect => some (disconnectStep w)
  | Ev.sockOpen sid => sockOpenEv w sid
  | Ev.sockClose sid => sockCloseEv w sid
  | Ev.sockMessage sid data => sockMessageEv w sid data
  | Ev.sockError sid => sockErrorEv w sid
  | Ev.fireReconnect => fireReconnectEv w
  | Ev.firePing iid => firePingEv w iid
  | Ev.subscribe l => some (subscribeStep w l)
  | Ev.unsubscribe l => some (unsubscribeStep w l)

/-- The freshly constructed client (`new WebSocketClient()`) in an
empty environment. -/
def initWorld : World :=
  { client :=
      { ws := none, listeners := [], reconnectAttempts := 0, maxReconnectAttempts := 5
        reconnectDelay := 3000, isIntentionallyClosed := false, pingInterval := none }
    sockets := [], nextSocketId := 0, intervals := [], nextIntervalId := 0
    pendingReconnects := [], sent := [], invoked := [] }

/-- Run a trace of events from a world. -/
def run (w : World) : List Ev → Option World
  | [] => some w
  | e :: es =>
    match step w e with
    | some w' => run w' es
    | none => none

/-- A world the machine can actually be in. -/
def Reachable (w : World) : Prop :=
  ∃ evs : List Ev, run initWorld evs = some w

/-- Embedding of `WebSocketClient.getConnectionState`: null reference
reads DISCONNECTED, otherwise the switch over `readyState` (with the
`default: UNKNOWN` arm). -/
def getConnectionState (w : World) : String :=
  match w.client.ws with
  | none => "DISCONNECTED"
  | some sid =>
    match getSock w.sockets sid with
    | some st =>
      if st = CONNECTING then "CONNECTING"
      else if st = OPEN then "CONNECTED"
      else if st = CLOSING then "CLOSING"
      else if st = CLOSED then "DISCONNECTED"
      else "UNKNOWN"
    | none => "UNKNOWN"

/-- A world with one socket just created (`connect()` called once). -/
def wConn : World := (run initWorld [Ev.connect]).getD initWorld

/-- A world with one open socket, a running heartbeat and one
registered listener. -/
def wOpen : World :=
  (run initWorld [Ev.connect, Ev.sockOpen 0, Ev.subscribe 7]).getD initWorld

/-- The world after the open handler ran on `wConn`. -/
def wOpen8 : World := (step wConn (Ev.sockOpen 0)).getD initWorld

/-- Trace with five consecutive involuntary closes and no successful
open: the initial attempt fails, and each of the four fired reconnect
attempts fails again (the fifth reconnect is still pending at the
end). -/
def t5 : List Ev :=
  [Ev.connect, Ev.sockClose 0, Ev.fireReconnect, Ev.sockClose 1, Ev.fireReconnect,
   Ev.sockClose 2, Ev.fireReconnect, Ev.sockClose 3, Ev.fireReconnect, Ev.sockClose 4]

/-- `t5` continued: the fifth pending reconnect fires and that attempt
also closes involuntarily, exhausting the budget. -/
def t6 : List Ev := t5 ++ [Ev.fireReconnect, Ev.sockClose 5]

/-- The world after the reconnection budget is exhausted. -/
def w6 : World := (run initWorld t6).getD initWorld

/-- The world after a further `disconnect()` in `w6`. -/
def w6d : World := (run w6 [Ev.disconnect]).getD initWorld

/-- A terminally dead connection: no pending reconnect, no live
interval, every socket CLOSED, and the client reference (when not
null) pointing at a CLOSED socket. -/
def Dead (w : World) : Prop :=
  w.pendingReconnects = [] ∧ w.intervals = [] ∧
  (∀ p ∈ w.sockets, p.2 = CLOSED) ∧
  (match w.client.ws with
   | some sid => getSock w.sockets sid = some CLOSED
   | none => True)

/-- The wire frame of the specification's end-to-end scenario. -/
def scStr : String :=
  "\x7b\"id\":1,\"timestamp\":\"2025-01-01T00:00:00Z\",\"type\":\"speed_violation\",\"severity\":4,\"source\":\"camera_2\",\"metadata\":\x7b\x7d\x7d"

/-- The decoded value of `scStr`. -/
def scJson : Json :=
  Json.obj
    [("id", Json.num 1), ("timestamp", Json.str "2025-01-01T00:00:00Z"),
     ("type", Json.str "speed_violation"), ("severity", Json.num 4),
     ("source", Json.str "camera_2"), ("metadata", Json.obj [])]

/-!  Helper lemmas. -/

/-- A successful socket lookup comes from a list entry. -/
theorem getSock_mem {l : List (Nat × Nat)} {sid v : Nat}
    (h : getSock l sid = some v) : (sid, v) ∈ l := by
  induction l with
  | nil => simp [getSock] at h
  | cons p ps ih =>
    by_cases hp : p.1 = sid
    · simp [getSock, hp] at h
      have : p = (sid, v) := by
        cases p
        simp_all
      simp [this]
    · simp [getSock, hp] at h
      exact List.mem_cons_of_mem _ (ih h)

/-- Clearing an interval really removes it. -/
theorem hasInterval_clear (l : List (Nat × Nat)) (iid : Nat) :
    hasInterval (clearIntervalBy l iid) iid = false := by
  induction l with
  | nil => rfl
  | cons p ps ih =>
    by_cases hp : p.1 = iid
    · simpa [clearIntervalBy, List.filter_cons, hp] using ih
    · simpa [clearIntervalBy, List.filter_cons, hp, hasInterval] using ih

/-- Effect of `close()` on the closed socket's state. -/
theorem getSock_closeSock (l : List (Nat × Nat)) (sid : Nat) :
    getSock (closeSock l sid) sid =
      (getSock l sid).map (fun st => if st < CLOSING then CLOSING else st) := by
  induction l with
  | nil => rfl
  | cons p ps ih =>
    by_cases hp : p.1 = sid
    · simp [closeSock, getSock, hp]
    · simpa [closeSock, getSock, hp] using ih

/-!  C1. -/

/-- Claim C1 (code bug): calling `disconnect()` while a reconnection is
pending does NOT prevent that reconnection.  After an involuntary close
a reconnect is pending; `disconnect()` leaves the pending timeout in
place, and when it fires its callback calls `connect()`, which resets
the intentionally-closed flag and opens a brand-new socket, so
`getConnectionState()` reads CONNECTING, not DISCONNECTED. -/
theorem c1_disconnect_pending_reconnect :
    ((run initWorld [Ev.connect, Ev.sockClose 0, Ev.disconnect]).map
        (fun w => (getConnectionState w, w.pendingReconnects.length,
                   w.client.isIntentionallyClosed))
      = some ("DISCONNECTED", 1, true)) ∧
    ((run initWorld [Ev.connect, Ev.sockClose 0, Ev.disconnect, Ev.fireReconnect]).map
        (fun w => (getConnectionState w, w.nextSocketId, w.client.isIntentionallyClosed))
      = some ("CONNECTING", 2, false)) :=
  ⟨rfl, rfl⟩

/-!  C2. -/

/-- Claim C2 counterexample: `connect()` while the session is still
CONNECTING is not a no-op — a second transport instance is created. -/
theorem c2_counterexample :
    ((run initWorld [Ev.connect]).map
        (fun w => (getConnectionState w, w.sockets.length)) = some ("CONNECTING", 1)) ∧
    ((run initWorld [Ev.connect, Ev.connect]).map
        (fun w => (getConnectionState w, w.sockets.length)) = some ("CONNECTING", 2)) :=
  ⟨rfl, rfl⟩

/-- Claim C2 (amended): calling `connect()` while the current session is
Open is a strict no-op; while the session is still Connecting, however,
`connect()` creates a second transport instance and repoints the
session reference at it. -/
theorem c2_connect_noop_only_when_open (w : World) (sid : Nat)
    (h1 : w.client.ws = some sid) :
    (getSock w.sockets sid = some OPEN → step w Ev.connect = some w) ∧
    (getSock w.sockets sid = some CONNECTING →
      step w Ev.connect = some
        { w with
          client := { w.client with isIntentionallyClosed := false, ws := some w.nextSocketId }
          sockets := w.sockets ++ [(w.nextSocketId, CONNECTING)]
          nextSocketId := w.nextSocketId + 1 }) := by
  constructor
  · intro h2
    simp [step, connectStep, wsIsOpen, h1, h2]
  · intro h2
    simp [step, connectStep, wsIsOpen, h1, h2, OPEN, CONNECTING]

/-- Witness for C2: in the concretely reached open world, `connect()`
returns the world unchanged. -/
theorem c2_connect_noop_witness :
    wOpen.client.ws = some 0 ∧ getSock wOpen.sockets 0 = some OPEN ∧
    step wOpen Ev.connect = some wOpen :=
  ⟨rfl, rfl, (c2_connect_noop_only_when_open wOpen 0 rfl).1 rfl⟩

/-!  C10. -/

/-- Claim C10: a transport error event only logs; the entire world —
connection state, session reference, flag, counter, timers, listener
registry — is unchanged. -/
theorem c10_error_event_noop (w : World) (sid : Nat)
    (h : (getSock w.sockets sid).isSome = true) :
    step w (Ev.sockError sid) = some w := by
  simp [step, sockErrorEv, h]

/-- Witness for C10 at a concretely reached world. -/
theorem c10_error_event_noop_witness :
    (getSock wConn.sockets 0).isSome = true ∧ step wConn (Ev.sockError 0) = some wConn :=
  ⟨rfl, c10_error_event_noop wConn 0 rfl⟩

/-!  C5 and C6. -/

/-- The literal liveness reply is not valid JSON. -/
theorem jsonParse_pong : jsonParse "pong" = none := rfl

/-- Claim C5: a literal `pong` frame is discarded without touching the
invocation log, and a frame that decodes as JSON is dispatched to every
registered listener with the deep-equal decoded value (the invocation
log grows by exactly one entry per registered listener). -/
theorem c5_pong_discarded_json_dispatched (w : World) (sid : Nat) (data : String)
    (v : Json) (hopen : getSock w.sockets sid = some OPEN) :
    (data = "pong" → step w (Ev.sockMessage sid data) = some w) ∧
    (jsonParse data = some v →
      step w (Ev.sockMessage sid data) =
        some { w with invoked := w.invoked ++ w.client.listeners.map (fun l => (l, v)) }) := by
  constructor
  · intro hp
    simp [step, sockMessageEv, hopen, hp]
  · intro hv
    have hne : data ≠ "pong" := by
      intro hp
      rw [hp, jsonParse_pong] at hv
      exact Option.noConfusion hv
    simp [step, sockMessageEv, hopen, hne, hv]

/-- Witness for C5: the specification's scenario frame is decoded and
delivered once to the registered listener, and a `pong` frame changes
nothing. -/
theorem c5_pong_discarded_json_dispatched_witness :
    (step wOpen (Ev.sockMessage 0 scStr) =
      some { wOpen with invoked := wOpen.invoked ++ wOpen.client.listeners.map (fun l => (l, scJson)) }) ∧
    step wOpen (Ev.sockMessage 0 "pong") = some wOpen :=
  ⟨(c5_pong_discarded_json_dispatched wOpen 0 scStr scJson rfl).2 rfl,
   (c5_pong_discarded_json_dispatched wOpen 0 "pong" scJson rfl).1 rfl⟩

/-- Claim C6: a frame that is neither `pong` nor parseable JSON is
dropped inside the handler: the step succeeds (nothing is raised) and
the world — state, session, timers, reconnect counter, invocation
log — is entirely unchanged. -/
theorem c6_malformed_payload_dropped (w : World) (sid : Nat) (data : String)
    (hopen : getSock w.sockets sid = some OPEN) (hp : data ≠ "pong")
    (hj : jsonParse data = none) :
    step w (Ev.sockMessage sid data) = some w := by
  simp [step, sockMessageEv, hopen, hp, hj]

/-- Witness for C6 on the specification's own example payload. -/
theorem c6_malformed_payload_dropped_witness :
    jsonParse "\x7bnot json" = none ∧
    step wOpen (Ev.sockMessage 0 "\x7bnot json") = some wOpen :=
  ⟨rfl, c6_malformed_payload_dropped wOpen 0 "\x7bnot json" rfl (by decide) rfl⟩

/-!  C9. -/

/-- Claim C9: `disconnect()` succeeds from every state (even with no
session): it sets the sticky intentionally-closed flag, stops the
heartbeat interval, closes the referenced transport, clears the session
reference, and afterwards `getConnectionState()` is DISCONNECTED. -/
theorem c9_disconnect_always_succeeds (w : World) :
    step w Ev.disconnect = some (disconnectStep w) ∧
    (disconnectStep w).client.isIntentionallyClosed = true ∧
    (disconnectStep w).client.ws = none ∧
    getConnectionState (disconnectStep w) = "DISCONNECTED" ∧
    (∀ iid, w.client.pingInterval = some iid →
      hasInterval (disconnectStep w).intervals iid = false) ∧
    (∀ sid st, w.client.ws = some sid →
      getSock (disconnectStep w).sockets sid = some st → CLOSING ≤ st) := by
  refine ⟨rfl, ?_, ?_, ?_, ?_, ?_⟩
  · simp [disconnectStep]
    cases hws : w.client.ws <;> cases hpi : w.client.pingInterval <;> simp [hws, hpi]
  · simp [disconnectStep]
    cases hws : w.client.ws <;> cases hpi : w.client.pingInterval <;> simp [hws, hpi]
  · have hnone : (disconnectStep w).client.ws = none := by
      simp [disconnectStep]
      cases hws : w.client.ws <;> cases hpi : w.client.pingInterval <;> simp [hws, hpi]
    simp [getConnectionState, hnone]
  · intro iid hiid
    simp [disconnectStep, hiid]
    cases hws : w.client.ws <;> simp [hws, hasInterval_clear]
  · intro sid st hws hst
    simp [disconnectStep, hws] at hst
    cases hpi : w.client.pingInterval <;> simp [hpi] at hst <;>
    · rw [getSock_closeSock] at hst
      cases hget : getSock w.sockets sid <;> simp [hget] at hst
      split at hst
      · omega
      · omega

/-- Witness for C9 at the concretely reached open world (heartbeat 0
running, socket 0 open). -/
theorem c9_disconnect_always_succeeds_witness :
    step wOpen Ev.disconnect = some (disconnectStep wOpen) ∧
    (disconnectStep wOpen).client.isIntentionallyClosed = true ∧
    getConnectionState (disconnectStep wOpen) = "DISCONNECTED" ∧
    hasInterval (disconnectStep wOpen).intervals 0 = false ∧ CLOSING ≤ CLOSING :=
  ⟨(c9_disconnect_always_succeeds wOpen).1,
   (c9_disconnect_always_succeeds wOpen).2.1,
   (c9_disconnect_always_succeeds wOpen).2.2.2.1,
   (c9_disconnect_always_succeeds wOpen).2.2.2.2.1 0 rfl,
   (c9_disconnect_always_succeeds wOpen).2.2.2.2.2 0 CLOSING rfl rfl⟩

/-!  C8. -/

/-- Claim C8: every successful open resets the reconnect counter to 0
and starts a heartbeat interval with period 30000 ms (30 time-units of
1000 ms); every firing of a live interval appends a literal `ping`
frame to the send log exactly when the current session is still Open,
and changes nothing else. -/
theorem c8_heartbeat :
    (∀ w sid w', step w (Ev.sockOpen sid) = some w' →
      w'.client.reconnectAttempts = 0 ∧
      w'.intervals = w.intervals ++ [(w.nextIntervalId, 30000)] ∧
      w'.client.pingInterval = some w.nextIntervalId ∧ 30000 = 30 * 1000) ∧
    (∀ w iid w', step w (Ev.firePing iid) = some w' →
      w'.sent = w.sent ++ (if wsIsOpen w then [(w.client.ws.getD 0, "ping")] else []) ∧
      w'.client = w.client ∧ w'.sockets = w.sockets ∧ w'.intervals = w.intervals ∧
      w'.pendingReconnects = w.pendingReconnects) := by
  constructor
  · intro w sid w' h
    simp [step, sockOpenEv] at h
    obtain ⟨-, h2⟩ := h
    rw [← h2]
    simp
  · intro w iid w' h
    simp [step, firePingEv] at h
    obtain ⟨-, h2⟩ := h
    rw [← h2]
    cases hws : w.client.ws with
    | none => simp [wsIsOpen, hws]
    | some s =>
      by_cases hst : getSock w.sockets s = some OPEN
      · simp [wsIsOpen, hws, hst]
      · have : wsIsOpen w = false := by
          simp [wsIsOpen, hws]
          cases hg : getSock w.sockets s with
          | none => simp
          | some st =>
            simp
            intro heq
            exact absurd (by rw [hg, heq]) hst
        simp [hst, this]

/-- Witness for C8: opening socket 0 resets the counter and starts
interval 0 with period 30000; firing interval 0 sends one ping on the
open socket. -/
theorem c8_heartbeat_witness :
    wOpen8.client.reconnectAttempts = 0 ∧
    wOpen8.intervals = wConn.intervals ++ [(wConn.nextIntervalId, 30000)] ∧
    ((step wOpen8 (Ev.firePing 0)).getD initWorld).sent =
      wOpen8.sent ++ (if wsIsOpen wOpen8 then [(wOpen8.client.ws.getD 0, "ping")] else []) :=
  ⟨(c8_heartbeat.1 wConn 0 wOpen8 rfl).1,
   (c8_heartbeat.1 wConn 0 wOpen8 rfl).2.1,
   (c8_heartbeat.2 wOpen8 0 ((step wOpen8 (Ev.firePing 0)).getD initWorld) rfl).1⟩

/-!  Dispatcher lemmas for C3 and C7. -/

/-- When no invoked callback touches the registry, the `forEach` loop
visits exactly the pending listeners in order, and records exactly the
throwing ones as caught errors. -/
theorem dispatchLoop_pure (behavior : Nat → List RegOp) (throws : Nat → Bool)
    (hb : ∀ l, behavior l = []) :
    ∀ (p : List Nat) (fuel : Nat) (f lg er : List Nat), p.length ≤ fuel →
      (dispatchLoop behavior throws fuel ⟨f, p, lg, er⟩).log = lg ++ p ∧
      (dispatchLoop behavior throws fuel ⟨f, p, lg, er⟩).errs = er ++ p.filter throws := by
  intro p
  induction p with
  | nil =>
    intro fuel f lg er _
    cases fuel <;> simp [dispatchLoop]
  | cons l rest ih =>
    intro fuel f lg er h
    match fuel with
    | 0 => exact absurd h (by simp)
    | fuel' + 1 =>
      have hrc : runCallback behavior throws l ⟨f ++ [l], rest, lg ++ [l], er⟩ =
          ⟨f ++ [l], rest, lg ++ [l], er ++ if throws l then [l] else []⟩ := by
        by_cases ht : throws l <;> simp [runCallback, hb l, ht]
      have hstep : dispatchLoop behavior throws (fuel' + 1) ⟨f, l :: rest, lg, er⟩ =
          dispatchLoop behavior throws fuel'
            ⟨f ++ [l], rest, lg ++ [l], er ++ if throws l then [l] else []⟩ := by
        rw [dispatchLoop, ← hrc]
      have h' : rest.length ≤ fuel' := by
        simpa using Nat.le_of_succ_le_succ h
      obtain ⟨h1, h2⟩ := ih fuel' (f ++ [l]) (lg ++ [l]) (er ++ if throws l then [l] else []) h'
      rw [hstep, h1, h2]
      constructor
      · simp
      · by_cases ht : throws l <;> simp [ht, List.filter_cons]

/-!  C3. -/

/-- Claim C3 counterexample: with listeners 0 and 1 registered at
dispatch time, listener 0's callback unsubscribing listener 1 makes the
live `Set.forEach` iteration skip listener 1 entirely — a listener
registered at the moment of dispatch is invoked zero times, not exactly
once. -/
theorem c3_counterexample :
    1 ∈ ([0, 1] : List Nat) ∧
    (notifyListeners (fun l => if l = 0 then [RegOp.unsub 1] else [])
        (fun _ => false) [0, 1] 2).log = [0] :=
  ⟨by decide, rfl⟩

/-- Claim C3 (amended): for dispatches during which no callback
subscribes or unsubscribes listeners, every listener registered at
dispatch time is invoked exactly once for the message, and no listener
removed before the dispatch is invoked.  (A callback that unsubscribes
a not-yet-visited listener mid-dispatch suppresses that listener's
invocation, and one that removes and re-adds an already-visited
listener causes a second invocation, because the source iterates the
live set rather than a snapshot.) -/
theorem c3_dispatch_exact (behavior : Nat → List RegOp) (throws : Nat → Bool)
    (ls : List Nat) (fuel : Nat) (hb : ∀ l, behavior l = []) (hnd : ls.Nodup)
    (hf : ls.length ≤ fuel) :
    (notifyListeners behavior throws ls fuel).log = ls ∧
    (∀ l ∈ ls, (notifyListeners behavior throws ls fuel).log.count l = 1) ∧
    (∀ l, l ∉ ls → l ∉ (notifyListeners behavior throws ls fuel).log) := by
  have h := (dispatchLoop_pure behavior throws hb ls fuel [] [] [] hf).1
  have hlog : (notifyListeners behavior throws ls fuel).log = ls := by
    simpa [notifyListeners] using h
  refine ⟨hlog, ?_, ?_⟩
  · intro l hl
    rw [hlog]
    exact List.count_eq_one_of_mem hnd hl
  · intro l hl
    rw [hlog]
    exact hl

/-- Witness for C3 on a concrete registry with registry-pure
callbacks. -/
theorem c3_dispatch_exact_witness :
    (notifyListeners (fun _ => []) (fun _ => false) [0, 1] 2).log = [0, 1] ∧
    (notifyListeners (fun _ => []) (fun _ => false) [0, 1] 2).log.count 1 = 1 :=
  ⟨(c3_dispatch_exact (fun _ => []) (fun _ => false) [0, 1] 2
      (fun _ => rfl) (by decide) (by decide)).1,
   (c3_dispatch_exact (fun _ => []) (fun _ => false) [0, 1] 2
      (fun _ => rfl) (by decide) (by decide)).2.1 1 (by decide)⟩

/-!  C7. -/

/-- Claim C7: a listener that throws is caught inside the dispatch loop
and logged; every registered listener is still invoked exactly once,
the caught errors are exactly the throwing listeners, and a message
dispatch never touches the transport, timers or connection state. -/
theorem c7_listener_isolation (behavior : Nat → List RegOp) (throws : Nat → Bool)
    (ls : List Nat) (fuel : Nat) (hb : ∀ l, behavior l = []) (hnd : ls.Nodup)
    (hf : ls.length ≤ fuel) :
    (∀ l ∈ ls, (notifyListeners behavior throws ls fuel).log.count l = 1) ∧
    ((notifyListeners behavior throws ls fuel).errs = ls.filter throws) ∧
    (∀ w sid data w', step w (Ev.sockMessage sid data) = some w' →
      w'.client.ws = w.client.ws ∧ w'.sockets = w.sockets ∧
      w'.intervals = w.intervals ∧ w'.pendingReconnects = w.pendingReconnects ∧
      w'.client.listeners = w.client.listeners ∧ w'.sent = w.sent) := by
  obtain ⟨h1, h2⟩ := dispatchLoop_pure behavior throws hb ls fuel [] [] [] hf
  refine ⟨?_, ?_, ?_⟩
  · intro l hl
    have hlog : (notifyListeners behavior throws ls fuel).log = ls := by
      simpa [notifyListeners] using h1
    rw [hlog]
    exact List.count_eq_one_of_mem hnd hl
  · simpa [notifyListeners] using h2
  · intro w sid data w' h
    simp [step, sockMessageEv] at h
    obtain ⟨-, h⟩ := h
    by_cases hp : data = "pong"
    · simp [hp] at h
      rw [← h]
      exact ⟨rfl, rfl, rfl, rfl, rfl, rfl⟩
    · simp [hp] at h
      cases hj : jsonParse data with
      | none =>
        simp [hj] at h
        rw [← h]
        exact ⟨rfl, rfl, rfl, rfl, rfl, rfl⟩
      | some v =>
        simp [hj] at h
        rw [← h]
        exact ⟨rfl, rfl, rfl, rfl, rfl, rfl⟩

/-- Witness for C7: listener 0 throws, listener 1 is still invoked,
and the error log holds exactly listener 0. -/
theorem c7_listener_isolation_witness :
    (notifyListeners (fun _ => []) (fun l => l == 0) [0, 1] 2).log.count 1 = 1 ∧
    (notifyListeners (fun _ => []) (fun l => l == 0) [0, 1] 2).errs = [0] :=
  ⟨(c7_listener_isolation (fun _ => []) (fun l => l == 0) [0, 1] 2
      (fun _ => rfl) (by decide) (by decide)).1 1 (by decide),
   (c7_listener_isolation (fun _ => []) (fun l => l == 0) [0, 1] 2
      (fun _ => rfl) (by decide) (by decide)).2.1⟩

/-!  C4: the reconnection budget.  After the budget is exhausted the
machine is in a `Dead` world, and `Dead` is preserved by every event
except an explicit `connect()`. -/

/-- In an all-CLOSED socket table a lookup yields CLOSED or nothing. -/
theorem dead_getSock {l : List (Nat × Nat)} (h3 : ∀ p ∈ l, p.2 = CLOSED) (sid : Nat) :
    getSock l sid = none ∨ getSock l sid = some CLOSED := by
  cases hg : getSock l sid with
  | none => exact Or.inl rfl
  | some v =>
    right
    exact congrArg some (h3 (sid, v) (getSock_mem hg))

/-- Closing a socket in an all-CLOSED table changes nothing observable. -/
theorem closeSock_dead {l : List (Nat × Nat)} (h3 : ∀ p ∈ l, p.2 = CLOSED) (sid : Nat) :
    ∀ p ∈ closeSock l sid, p.2 = CLOSED := by
  intro p hp
  simp only [closeSock, List.mem_map] at hp
  obtain ⟨q, hq, hfq⟩ := hp
  subst hfq
  by_cases h : q.1 = sid
  · simp [h, h3 q hq, CLOSED, CLOSING]
  · simp [h]
    exact h3 q hq

/-- Projections of `disconnect()` that hold in every world. -/
theorem disconnectStep_proj (w : World) :
    (disconnectStep w).pendingReconnects = w.pendingReconnects ∧
    (disconnectStep w).nextSocketId = w.nextSocketId ∧
    (disconnectStep w).client.ws = none := by
  rcases hip : w.client.pingInterval with _ | iid <;>
    rcases hws : w.client.ws with _ | sid <;>
      simp [disconnectStep, hip, hws]

/-- `disconnect()` in a world without live intervals leaves none. -/
theorem disconnectStep_intervals_dead (w : World) (hi : w.intervals = []) :
    (disconnectStep w).intervals = [] := by
  rcases hip : w.client.pingInterval with _ | iid <;>
    rcases hws : w.client.ws with _ | sid <;>
      simp [disconnectStep, hip, hws, hi, clearIntervalBy]

/-- `disconnect()` in a world whose sockets are all CLOSED leaves them
all CLOSED. -/
theorem disconnectStep_sockets_dead (w : World) (h3 : ∀ p ∈ w.sockets, p.2 = CLOSED) :
    ∀ p ∈ (disconnectStep w).sockets, p.2 = CLOSED := by
  rcases hip : w.client.pingInterval with _ | iid <;> rcases hws : w.client.ws with _ | sid
  · have h : (disconnectStep w).sockets = w.sockets := by simp [disconnectStep, hip, hws]
    rw [h]
    exact h3
  · have h : (disconnectStep w).sockets = closeSock w.sockets sid := by
      simp [disconnectStep, hip, hws]
    rw [h]
    exact closeSock_dead h3 sid
  · have h : (disconnectStep w).sockets = w.sockets := by simp [disconnectStep, hip, hws]
    rw [h]
    exact h3
  · have h : (disconnectStep w).sockets = closeSock w.sockets sid := by
      simp [disconnectStep, hip, hws]
    rw [h]
    exact closeSock_dead h3 sid

/-- A world with the same pending list, intervals, sockets and session
reference as a `Dead` world is `Dead`. -/
theorem dead_of_fields {w w' : World} (hd : Dead w)
    (h1 : w'.pendingReconnects = w.pendingReconnects) (h2 : w'.intervals = w.intervals)
    (h3 : w'.sockets = w.sockets) (h4 : w'.client.ws = w.client.ws) : Dead w' := by
  obtain ⟨hp, hi, hs3, hw⟩ := hd
  refine ⟨h1 ▸ hp, h2 ▸ hi, h3 ▸ hs3, ?_⟩
  rw [h4, h3]
  exact hw

/-- `Dead` is preserved, and no socket is created, by every event other
than an explicit `connect()`. -/
theorem dead_step {w w' : World} {e : Ev} (hd : Dead w) (hne : e ≠ Ev.connect)
    (hs : step w e = some w') : Dead w' ∧ w'.nextSocketId = w.nextSocketId := by
  obtain ⟨hp, hi, h3, hw⟩ := hd
  cases e with
  | connect => exact absurd rfl hne
  | disconnect =>
    simp [step] at hs
    subst hs
    obtain ⟨hq1, hq2, hq3⟩ := disconnectStep_proj w
    refine ⟨⟨hq1 ▸ hp, disconnectStep_intervals_dead w hi,
             disconnectStep_sockets_dead w h3, ?_⟩, hq2⟩
    rw [hq3]
    trivial
  | sockOpen sid =>
    rcases dead_getSock h3 sid with hg | hg <;>
      simp [step, sockOpenEv, hg, CONNECTING, CLOSED] at hs
  | sockClose sid =>
    rcases dead_getSock h3 sid with hg | hg <;>
      simp [step, sockCloseEv, hg, CLOSED] at hs
  | sockMessage sid data =>
    rcases dead_getSock h3 sid with hg | hg <;>
      simp [step, sockMessageEv, hg, OPEN, CLOSED] at hs
  | sockError sid =>
    rcases dead_getSock h3 sid with hg | hg <;>
      simp [step, sockErrorEv, hg] at hs
    subst hs
    exact ⟨⟨hp, hi, h3, hw⟩, rfl⟩
  | fireReconnect =>
    simp [step, fireReconnectEv, hp] at hs
  | firePing iid =>
    simp [step, firePingEv, hi, hasInterval] at hs
  | subscribe l =>
    simp [step] at hs
    subst hs
    by_cases hl : l ∈ w.client.listeners
    · refine ⟨dead_of_fields ⟨hp, hi, h3, hw⟩ ?_ ?_ ?_ ?_, ?_⟩ <;> simp [subscribeStep, hl]
    · refine ⟨dead_of_fields ⟨hp, hi, h3, hw⟩ ?_ ?_ ?_ ?_, ?_⟩ <;> simp [subscribeStep, hl]
  | unsubscribe l =>
    simp [step] at hs
    subst hs
    refine ⟨dead_of_fields ⟨hp, hi, h3, hw⟩ ?_ ?_ ?_ ?_, ?_⟩ <;> simp [unsubscribeStep]

/-- A `Dead` world reads DISCONNECTED. -/
theorem dead_state {w : World} (hd : Dead w) : getConnectionState w = "DISCONNECTED" := by
  obtain ⟨-, -, -, hw⟩ := hd
  cases hws : w.client.ws with
  | none => simp [getConnectionState, hws]
  | some sid =>
    simp [hws] at hw
    simp [getConnectionState, hws, hw, CLOSED, CONNECTING, OPEN, CLOSING]

/-- `Dead` is preserved by any trace avoiding `connect()`. -/
theorem dead_run : ∀ (evs : List Ev) (w w' : World), Dead w →
    (∀ e ∈ evs, e ≠ Ev.connect) → run w evs = some w' →
    Dead w' ∧ w'.nextSocketId = w.nextSocketId := by
  intro evs
  induction evs with
  | nil =>
    intro w w' hd _ h
    simp [run] at h
    subst h
    exact ⟨hd, rfl⟩
  | cons e es ih =>
    intro w w' hd hne hrun
    cases hstep : step w e with
    | none => rw [run, hstep] at hrun; exact absurd hrun (by simp)
    | some w1 =>
      rw [run, hstep] at hrun
      obtain ⟨hd1, hnext1⟩ := dead_step hd (hne e (by simp)) hstep
      obtain ⟨hd', hnext'⟩ := ih w1 w' hd1 (fun e' he' => hne e' (by simp [he'])) hrun
      exact ⟨hd', by rw [hnext', hnext1]⟩

/-- The budget-exhausted world is `Dead`. -/
theorem dead_w6 : Dead w6 :=
  ⟨rfl, rfl, by decide, rfl⟩

/-- Claim C4 counterexample: after exactly 5 consecutive involuntary
closes (every connection attempt failing, no successful open, no
explicit call in between) the fifth reconnection attempt is still
pending, and when its timer fires a further automatic connection
attempt is made: the state reads CONNECTING and a sixth socket
exists — not the claimed permanent DISCONNECTED. -/
theorem c4_counterexample :
    ((run initWorld t5).map
        (fun w => (w.client.reconnectAttempts, w.pendingReconnects.length,
                   getConnectionState w)) = some (5, 1, "DISCONNECTED")) ∧
    ((run initWorld (t5 ++ [Ev.fireReconnect])).map
        (fun w => (getConnectionState w, w.sockets.length)) = some ("CONNECTING", 6)) :=
  ⟨rfl, rfl⟩

/-- Claim C4 (amended): after 6 consecutive involuntary closes with no
intervening successful open — the initial failure plus the 5 automatic
reconnection attempts the budget allows, each failing — no reconnection
is pending, no further one is ever scheduled, and `getConnectionState()`
remains DISCONNECTED under every subsequent event until an explicit
`connect()` call. -/
theorem c4_reconnect_budget :
    run initWorld t6 = some w6 ∧
    getConnectionState w6 = "DISCONNECTED" ∧ w6.pendingReconnects = [] ∧
    w6.client.reconnectAttempts = 5 ∧
    (∀ evs w', (∀ e ∈ evs, e ≠ Ev.connect) → run w6 evs = some w' →
      getConnectionState w' = "DISCONNECTED" ∧ w'.pendingReconnects = [] ∧
      w'.nextSocketId = w6.nextSocketId) := by
  refine ⟨rfl, rfl, rfl, rfl, ?_⟩
  intro evs w' hne hrun
  obtain ⟨hd', hnext⟩ := dead_run evs w6 w' dead_w6 hne hrun
  exact ⟨dead_state hd', hd'.1, hnext⟩

/-- Witness for C4: a later `disconnect()` keeps the dead world
disconnected with nothing pending. -/
theorem c4_reconnect_budget_witness :
    getConnectionState w6d = "DISCONNECTED" ∧ w6d.pendingReconnects = [] ∧
    w6d.nextSocketId = w6.nextSocketId :=
  c4_reconnect_budget.2.2.2.2 [Ev.disconnect] w6d (by decide) rfl

end SafeLift
